import Mathlib

/-!
Verification of the project-lifecycle HTTP API in `api_server.py`
(GraphRAG Flask/FastAPI wrapper).

The filesystem is modelled as a set of directories and a map of files,
both keyed by paths given as lists of components relative to the
process working directory (so the workspace root is `["api_projects"]`).
External library calls (`initialize_project_at`, `load_config`,
`build_index`, the search routines, per-file reads during upload) are
injected as explicit outcome parameters, since their behaviour is out of
scope; everything this repository itself does — directory bookkeeping,
validation, environment fallback, error conversion — is embedded
faithfully from the source.
-/

namespace GraphragFlask

/-- A filesystem path, as a list of components. -/
abbrev Path := List String

/-- Filesystem state: the set of directories present and the files
present with their contents (text or raw bytes, both as `String`). -/
structure FS where
  dirs : List Path
  files : List (Path × String)
deriving DecidableEq, Repr

/-- The empty filesystem. -/
def FS.empty : FS := ⟨[], []⟩

/-- Directory presence (`pathlib.Path.is_dir`). -/
def FS.existsDir (fs : FS) (p : Path) : Bool := fs.dirs.contains p

/-- Read a file's contents, `none` if absent. -/
def FS.readFile (fs : FS) (p : Path) : Option String :=
  (fs.files.find? (fun f => f.1 == p)).map (·.2)

/-- Path presence (`pathlib.Path.exists`): true if a directory or a file is at `p`. -/
def FS.existsPath (fs : FS) (p : Path) : Bool :=
  fs.existsDir p || (fs.readFile p).isSome

/-- Writing a file (`Path.write_text` / `write_bytes`).  The newest
entry is prepended; `readFile` takes the first match, giving overwrite
semantics. -/
def FS.writeFile (fs : FS) (p : Path) (content : String) : FS :=
  { fs with files := (p, content) :: fs.files }

/-- Add a single directory if not already present (`mkdir exist_ok=True`). -/
def FS.addDir (fs : FS) (d : Path) : FS :=
  if d ∈ fs.dirs then fs else { fs with dirs := d :: fs.dirs }

/-- All nonempty prefixes of a path, shortest first. -/
def ancestors : Path → List Path
  | [] => []
  | a :: rest => [a] :: (ancestors rest).map (a :: ·)

/-- Directory creation (`Path.mkdir(parents=True, exist_ok=True)`): create `p` and every
missing ancestor. -/
def FS.mkdirParents (fs : FS) (p : Path) : FS :=
  (ancestors p).foldl FS.addDir fs

/-- Recursive removal (`shutil.rmtree p`): remove `p` and everything below it. -/
def FS.rmtree (fs : FS) (p : Path) : FS :=
  { dirs := fs.dirs.filter (fun d => ! p.isPrefixOf d),
    files := fs.files.filter (fun f => ! p.isPrefixOf f.1) }

/-- The workspace root directory (`API_PROJECTS_DIR = Path("./api_projects")`). -/
def apiProjectsDir : Path := ["api_projects"]

/-- The project directory `API_PROJECTS_DIR / project_id`. -/
def projectPath (project_id : String) : Path := ["api_projects", project_id]

/-! ## Request validation (`CreateProjectRequest.fill_defaults_from_env`) -/

/-- The process environment variables the validator consults
(`os.getenv`; `none` = unset). -/
structure Env where
  graphrag_api_key : Option String
  azure_api_base : Option String
  azure_api_version : Option String
  azure_deployment_name : Option String
deriving DecidableEq, Repr

/-- The raw request-body values seen by the `pre=True` root validator
(`none` = key absent or JSON null). -/
structure CreateValues where
  text_content : Option String := none
  api_key : Option String := none
  llm : Option String := none
  azure_api_base : Option String := none
  azure_api_version : Option String := none
  azure_deployment_name : Option String := none
deriving DecidableEq, Repr

/-- Python truthiness of an optional string: `None` and `""` are falsy. -/
def strTruthy : Option String → Bool
  | none => false
  | some s => s ≠ ""

/-- Error message raised when no API key is resolvable. -/
def apiKeyErrMsg : String :=
  "API key 必須在請求中提供或設定在環境變數 GRAPHRAG_API_KEY 中"

/-- Error message raised when the Azure environment variables are not all set. -/
def azureErrMsg : String :=
  "使用 Azure 時必須提供所有 Azure 設定或在環境變數中設定"

/-- The root validator `CreateProjectRequest.fill_defaults_from_env` (api_server.py:58-84):
fill `api_key` from `GRAPHRAG_API_KEY` when not truthy in the request,
else raise; when `llm` resolves to `"azure"`, require ALL THREE
`AZURE_*` environment variables to be truthy (the request-supplied
values are not consulted by this check), then `setdefault` the azure
fields from the environment. -/
def fill_defaults_from_env (env : Env) (values : CreateValues) :
    Except String CreateValues :=
  let step1 : Except String CreateValues :=
    if strTruthy values.api_key then .ok values
    else if strTruthy env.graphrag_api_key then
      .ok { values with api_key := env.graphrag_api_key }
    else .error apiKeyErrMsg
  match step1 with
  | .error e => .error e
  | .ok v =>
    let llm_val := if strTruthy v.llm then v.llm.getD "openai" else "openai"
    if llm_val = "azure" then
      if strTruthy env.azure_api_base ∧ strTruthy env.azure_api_version ∧
          strTruthy env.azure_deployment_name then
        .ok { v with
          azure_api_base := v.azure_api_base <|> env.azure_api_base,
          azure_api_version := v.azure_api_version <|> env.azure_api_version,
          azure_deployment_name :=
            v.azure_deployment_name <|> env.azure_deployment_name }
      else .error azureErrMsg
    else .ok v

/-! ## Python `str.strip()` (default whitespace) -/

/-- The code points Python's default `str.strip()` treats as whitespace. -/
def pyWhitespaceCodes : List Nat :=
  [9, 10, 11, 12, 13, 28, 29, 30, 31, 32, 133, 160, 5760,
   8192, 8193, 8194, 8195, 8196, 8197, 8198, 8199, 8200, 8201, 8202,
   8232, 8233, 8239, 8287, 12288]

/-- Whether a character is Python string whitespace. -/
def isPySpace (c : Char) : Bool := pyWhitespaceCodes.contains c.toNat

/-- Python `str.strip()` on a character list: drop whitespace at both ends. -/
def pyStripList (l : List Char) : List Char :=
  ((l.dropWhile isPySpace).reverse.dropWhile isPySpace).reverse

/-- Truthiness of `request.text_content and request.text_content.strip()`
(api_server.py:121): the text is nonempty and its strip is nonempty. -/
def writesSource (t : String) : Bool :=
  !(t == "") && !(pyStripList t.toList).isEmpty

/-! ## `create_project` (api_server.py:103-156) -/

/-- A validated `CreateProjectRequest` after pydantic applies field
defaults (`text_content` defaults to `""`, `llm` to `"openai"`). -/
structure CreateProjectRequest where
  text_content : String
  api_key : Option String
  llm : String
  azure_api_base : Option String
  azure_api_version : Option String
  azure_deployment_name : Option String
deriving DecidableEq, Repr

/-- Apply pydantic field defaults to the values the root validator returned. -/
def toRequest (v : CreateValues) : CreateProjectRequest :=
  { text_content := v.text_content.getD "",
    api_key := v.api_key,
    llm := v.llm.getD "openai",
    azure_api_base := v.azure_api_base,
    azure_api_version := v.azure_api_version,
    azure_deployment_name := v.azure_deployment_name }

/-- The steps of the `try` block of `create_project` at which an
exception can be injected. -/
inductive CreateStep
  | mkdirStep        -- input_path.mkdir(parents=True, exist_ok=True)
  | writeTextStep    -- (input_path / "source_text.txt").write_text(...)
  | initStep         -- initialize_project_at(...)
  | envStep          -- (project_path / ".env").write_text(...)
  | readSettingsStep -- open(settings_path, "r")
  | writeSettingsStep -- open(settings_path, "w")
deriving DecidableEq, Repr

/-- Python `str(None)` / `str(s)` as interpolated into the GRAPHRAG_API_KEY line. -/
def pyShow : Option String → String
  | none => "None"
  | some s => s

/-- The azure model-configuration block substituted into `settings.yaml`
(api_server.py:137-146), applied to the settings text the external
`initialize_project_at` produced.  The regex swap itself is external
text manipulation; we keep the substitution abstract as a function of
the default settings and the three azure fields. -/
def azureSub (settings : String) (req : CreateProjectRequest) : String :=
  settings ++ "\nllm:\ntype: azure_openai_chat\napi_base: " ++
    pyShow req.azure_api_base ++ "\napi_version: " ++
    pyShow req.azure_api_version ++ "\ndeployment_name: " ++
    pyShow req.azure_deployment_name

/-- The `except` handler of `create_project` (api_server.py:152-156):
best-effort cleanup then HTTP 500 with the underlying message. -/
def createCleanup (project_path : Path) (fsCur : FS) (msg : String) :
    (Nat × String) × FS :=
  let fsC := if fsCur.existsPath project_path then fsCur.rmtree project_path
             else fsCur
  ((500, "Failed to create project: " ++ msg), fsC)

/-- The message with which step `s` raises, if the injected failure
point is at `s`. -/
def stepFail (failAt : Option (CreateStep × String)) (s : CreateStep) :
    Option String :=
  match failAt with
  | some (s', m) => if s' = s then some m else none
  | none => none

/-- The `create_project` body (api_server.py:113-156).  `defaultSettings` is
the `settings.yaml` text that the external `initialize_project_at`
writes; `failAt`, when set, injects an exception with the given message
at the named step (modelling `except Exception`). -/
def create_project (fs : FS) (req : CreateProjectRequest)
    (project_id : String) (defaultSettings : String)
    (failAt : Option (CreateStep × String)) : (Nat × String) × FS :=
  let project_path := projectPath project_id
  let input_path := project_path ++ ["input"]
  match stepFail failAt .mkdirStep with
  | some m => createCleanup project_path fs m
  | none =>
  let fs1 := fs.mkdirParents input_path
  match stepFail failAt .writeTextStep with
  | some m => createCleanup project_path fs1 m
  | none =>
  let fs2 := if writesSource req.text_content then
      fs1.writeFile (input_path ++ ["source_text.txt"]) req.text_content
    else fs1
  match stepFail failAt .initStep with
  | some m => createCleanup project_path fs2 m
  | none =>
  let fs3 := (fs2.writeFile (project_path ++ ["settings.yaml"])
      defaultSettings).writeFile (project_path ++ [".env"]) "init"
  match stepFail failAt .envStep with
  | some m => createCleanup project_path fs3 m
  | none =>
  let fs4 := fs3.writeFile (project_path ++ [".env"])
      ("GRAPHRAG_API_KEY=" ++ pyShow req.api_key)
  match stepFail failAt .readSettingsStep with
  | some m => createCleanup project_path fs4 m
  | none =>
  let settings2 := if req.llm = "azure" then azureSub defaultSettings req
                   else defaultSettings
  match stepFail failAt .writeSettingsStep with
  | some m => createCleanup project_path fs4 m
  | none =>
  let fs5 := fs4.writeFile (project_path ++ ["settings.yaml"]) settings2
  ((201, "Project created successfully."), fs5)

/-- The `/create_project` endpoint as the framework runs it: pydantic
validation (the root validator) first — on failure a 422 validation
error is returned and the handler body never runs — then the handler. -/
def create_project_endpoint (env : Env) (fs : FS) (raw : CreateValues)
    (project_id : String) (defaultSettings : String)
    (failAt : Option (CreateStep × String)) : (Nat × String) × FS :=
  match fill_defaults_from_env env raw with
  | .error e => ((422, e), fs)
  | .ok v => create_project fs (toRequest v) project_id defaultSettings failAt

/-! ## `run_indexing` (api_server.py:159-196) -/

/-- The `IndexingConfig` request model with its pydantic defaults. -/
structure IndexingConfig where
  method : String := "standard"
  memory_profile : Bool := false
  dry_run : Bool := false
  output_dir : Option String := none
  verbose : Bool := true
deriving DecidableEq, Repr

/-- The `cli_overrides` construction (api_server.py:171-173): only a truthy
`output_dir` adds the `output.base_dir` override. -/
def cliOverrides (config : IndexingConfig) : List (String × String) :=
  if strTruthy config.output_dir then
    [("output.base_dir", config.output_dir.getD "")]
  else []

/-- The handler `run_indexing` (api_server.py:160-196).  `loadConfigResult` is the
outcome of the external `load_config(project_path, cli_overrides)` as a
function of the overrides passed to it; `buildIndexResult` the outcome
of the external `build_index`.  The returned `Bool` records whether
`build_index` was invoked. -/
def run_indexing (fs : FS) (project_id : String) (config : IndexingConfig)
    (loadConfigResult : List (String × String) → Except String Unit)
    (buildIndexResult : Except String Unit) : (Nat × String) × Bool :=
  let project_path := projectPath project_id
  if ¬ fs.existsPath project_path then ((404, "Project not found."), false)
  else
    match loadConfigResult (cliOverrides config) with
    | .error e => ((500, "Indexing failed: " ++ e), false)
    | .ok _ =>
      if config.dry_run then
        ((200, "Dry run validation successful. Configuration is valid."), false)
      else
        match buildIndexResult with
        | .ok _ => ((200, "Indexing process completed successfully."), true)
        | .error e => ((500, "Indexing failed: " ++ e), true)

/-! ## `run_query` (api_server.py:199-251) -/

/-- Python `str(e)` of a starlette `HTTPException` (status code, colon, detail),
as seen by the catch-all `except` clause. -/
def httpExcStr (code : Nat) (detail : String) : String :=
  toString code ++ ": " ++ detail

/-- The handler `run_query` (api_server.py:200-251).  `searchOutcome` is the outcome
of the external local/global search call (response string on success).
Note the `raise HTTPException(400, ...)` for an invalid method sits
INSIDE the `try` block, so it is caught by `except Exception` and
re-raised as a 500. -/
def run_query (fs : FS) (project_id : String) (query method : String)
    (searchOutcome : Except String String) : Nat × String :=
  let project_path := projectPath project_id
  if ¬ fs.existsPath project_path then (404, "Project not found.")
  else if ¬ fs.existsPath (project_path ++ ["output"]) then
    (400, "Project has not been indexed yet.")
  else
    if method = "local" ∨ method = "global" then
      match searchOutcome with
      | .ok response => (200, response)
      | .error e => (500, "Query failed: " ++ e)
    else
      (500, "Query failed: " ++
        httpExcStr 400 ("Invalid search method: " ++ method))

/-! ## `upload_txt_files` (api_server.py:254-290) -/

/-- One uploaded file: its client filename, its bytes, and — when the
per-file read/write raises — the exception message (`none` = the write
succeeds). -/
structure UploadFileIn where
  filename : String
  content : String
  failure : Option String
deriving DecidableEq, Repr

/-- The per-file outcome report (`results` dict). -/
structure UploadResults where
  successful : List String
  failed : List (String × String)
deriving DecidableEq, Repr

/-- The per-file loop body (api_server.py:269-281): on success write
`{uuid}_{filename}` into the input directory and record the filename;
on failure record the filename with the reason. -/
def uploadStep (input_path : Path) (uuidGen : Nat → String)
    (acc : FS × UploadResults × Nat) (file : UploadFileIn) :
    FS × UploadResults × Nat :=
  let (fsc, res, i) := acc
  match file.failure with
  | some reason =>
    (fsc, { res with failed := res.failed ++ [(file.filename, reason)] }, i + 1)
  | none =>
    let file_name := uuidGen i ++ "_" ++ file.filename
    (fsc.writeFile (input_path ++ [file_name]) file.content,
     { res with successful := res.successful ++ [file.filename] }, i + 1)

/-- The handler `upload_txt_files` (api_server.py:255-290): 404 when the project is
missing; recreate the input directory when absent; process each file in
order; 400 when no file succeeded, else 200.  `uuidGen i` is the uuid4
generated for the i-th file. -/
def upload_txt_files (fs : FS) (project_id : String)
    (files : List UploadFileIn) (uuidGen : Nat → String) :
    (Nat × String) × FS × UploadResults :=
  let project_path := projectPath project_id
  if ¬ fs.existsPath project_path then
    ((404, "Project not found."), fs, ⟨[], []⟩)
  else
    let input_path := project_path ++ ["input"]
    let fs0 := if ¬ fs.existsPath input_path then fs.mkdirParents input_path
               else fs
    let (fs1, results, _) :=
      files.foldl (uploadStep input_path uuidGen) (fs0, ⟨[], []⟩, 0)
    if results.successful.isEmpty then
      ((400, "No files could be uploaded."), fs1, results)
    else
      ((200, "Processed " ++ toString files.length ++ " files. " ++
        toString results.successful.length ++ " successful, " ++
        toString results.failed.length ++ " failed."), fs1, results)

/-! ## `delete_project` and `list_projects` (api_server.py:293-315) -/

/-- The handler `delete_project` (api_server.py:294-306): 404 when missing, else
recursively remove the project directory (the `rmtree` failure branch is
not modelled; deletion is taken to succeed). -/
def delete_project (fs : FS) (project_id : String) : (Nat × String) × FS :=
  let project_path := projectPath project_id
  if ¬ fs.existsPath project_path then ((404, "Project not found."), fs)
  else ((200, "Project deleted successfully."), fs.rmtree project_path)

/-- The handler `list_projects` (api_server.py:310-315): the names of the immediate
subdirectories of the workspace root (`iterdir` filtered by `is_dir`). -/
def list_projects (fs : FS) : List String :=
  fs.dirs.filterMap (fun d =>
    match d with
    | [r, n] => if r = "api_projects" then some n else none
    | _ => none)

/-! ## Helper lemmas about the filesystem model -/

theorem mem_addDir_preserve {fs : FS} {x : Path} (d : Path)
    (h : x ∈ fs.dirs) : x ∈ (fs.addDir d).dirs := by
  unfold FS.addDir
  split
  · exact h
  · exact List.mem_cons_of_mem _ h

theorem mem_addDir_self (fs : FS) (d : Path) : d ∈ (fs.addDir d).dirs := by
  unfold FS.addDir
  split
  · assumption
  · exact List.mem_cons_self _ _

theorem mem_foldl_addDir_preserve (l : List Path) (fs : FS) (x : Path)
    (h : x ∈ fs.dirs) : x ∈ (l.foldl FS.addDir fs).dirs := by
  induction l generalizing fs with
  | nil => exact h
  | cons a t ih => exact ih _ (mem_addDir_preserve a h)

theorem mem_foldl_addDir (l : List Path) (fs : FS) (x : Path)
    (h : x ∈ l) : x ∈ (l.foldl FS.addDir fs).dirs := by
  induction l generalizing fs with
  | nil => cases h
  | cons a t ih =>
    rcases List.mem_cons.mp h with rfl | h'
    · exact mem_foldl_addDir_preserve t _ _ (mem_addDir_self fs x)
    · exact ih _ h'

theorem mem_mkdirParents (fs : FS) (p q : Path) (h : q ∈ ancestors p) :
    q ∈ (fs.mkdirParents p).dirs :=
  mem_foldl_addDir _ _ _ h

theorem addDir_files (fs : FS) (d : Path) : (fs.addDir d).files = fs.files := by
  unfold FS.addDir
  split <;> rfl

theorem mkdirParents_files (fs : FS) (p : Path) :
    (fs.mkdirParents p).files = fs.files := by
  unfold FS.mkdirParents
  generalize ancestors p = l
  induction l generalizing fs with
  | nil => rfl
  | cons a t ih => rw [List.foldl_cons, ih, addDir_files]

theorem projectPath_mem_ancestors_input (project_id : String) :
    projectPath project_id ∈ ancestors (projectPath project_id ++ ["input"]) := by
  simp [ancestors, projectPath]

theorem self_mem_ancestors (p : Path) (h : p ≠ []) : p ∈ ancestors p := by
  induction p with
  | nil => exact absurd rfl h
  | cons a rest ih =>
    cases rest with
    | nil => simp [ancestors]
    | cons b t =>
      refine List.mem_cons_of_mem _ ?_
      exact List.mem_map_of_mem _ (ih (by simp))

theorem existsPath_of_mem_dirs (fs : FS) (p : Path) (h : p ∈ fs.dirs) :
    fs.existsPath p = true := by
  have hd : fs.existsDir p = true := by
    simpa [FS.existsDir, List.contains] using h
  simp [FS.existsPath, hd]

theorem writeFile_dirs (fs : FS) (p : Path) (c : String) :
    (fs.writeFile p c).dirs = fs.dirs := rfl

theorem readFile_writeFile_self (fs : FS) (p : Path) (c : String) :
    (fs.writeFile p c).readFile p = some c := by
  simp [FS.readFile, FS.writeFile, List.find?_cons]

theorem readFile_writeFile_ne (fs : FS) (p q : Path) (c : String)
    (h : p ≠ q) : (fs.writeFile p c).readFile q = fs.readFile q := by
  simp [FS.readFile, FS.writeFile, List.find?_cons, h]

theorem rmtree_dirs_no_prefix (fs : FS) (p : Path) :
    ∀ d ∈ (fs.rmtree p).dirs, p.isPrefixOf d = false := by
  intro d hd
  simp only [FS.rmtree, List.mem_filter, Bool.not_eq_true'] at hd
  exact hd.2

theorem rmtree_files_no_prefix (fs : FS) (p : Path) :
    ∀ f ∈ (fs.rmtree p).files, p.isPrefixOf f.1 = false := by
  intro f hf
  simp only [FS.rmtree, List.mem_filter, Bool.not_eq_true'] at hf
  exact hf.2

theorem rmtree_existsPath_self (fs : FS) (p : Path) :
    (fs.rmtree p).existsPath p = false := by
  have hself : p.isPrefixOf p = true := by
    simp [List.isPrefixOf_iff_prefix]
  have hdir : (fs.rmtree p).existsDir p = false := by
    simp only [FS.existsDir, List.contains]
    rw [Bool.eq_false_iff]
    intro hmem
    have hm : p ∈ (fs.rmtree p).dirs := by simpa [List.elem_iff] using hmem
    have hfalse := rmtree_dirs_no_prefix fs p p hm
    rw [hself] at hfalse
    simp at hfalse
  have hfind : List.find? (fun f => f.1 == p) (fs.rmtree p).files = none := by
    rw [List.find?_eq_none]
    intro f hf hbeq
    have hfp : f.1 = p := by simpa using hbeq
    have hfalse := rmtree_files_no_prefix fs p f hf
    rw [hfp, hself] at hfalse
    simp at hfalse
  simp [FS.existsPath, FS.readFile, hdir, hfind]

/-! ## Characterisation of the `text_content` write condition -/

theorem dropWhile_forall_iff (p : Char → Bool) (l : List Char) :
    (∀ c ∈ l.dropWhile p, p c = true) ↔ ∀ c ∈ l, p c = true := by
  constructor
  · intro h c hc
    rcases List.mem_append.mp
        ((List.takeWhile_append_dropWhile p l) ▸ hc) with h1 | h2
    · exact List.mem_takeWhile_imp h1
    · exact h c h2
  · intro h c hc
    exact h c ((List.dropWhile_sublist p).subset hc)

theorem pyStripList_empty_iff (l : List Char) :
    pyStripList l = [] ↔ ∀ c ∈ l, isPySpace c = true := by
  unfold pyStripList
  rw [List.reverse_eq_nil_iff, List.dropWhile_eq_nil_iff]
  constructor
  · intro h
    rw [← dropWhile_forall_iff isPySpace l]
    intro c hc
    exact h c (by simpa using hc)
  · intro h c hc
    exact h c ((List.dropWhile_sublist isPySpace).subset (by simpa using hc))

theorem writesSource_iff (t : String) :
    writesSource t = true ↔ ∃ c ∈ t.toList, isPySpace c = false := by
  unfold writesSource
  rw [Bool.and_eq_true, Bool.not_eq_true', Bool.not_eq_true',
    List.isEmpty_eq_false, beq_eq_false_iff_ne]
  constructor
  · rintro ⟨-, hne⟩
    by_contra hall
    push_neg at hall
    apply hne
    rw [pyStripList_empty_iff]
    intro c hc
    have h1 := hall c hc
    simpa using h1
  · rintro ⟨c, hc, hcs⟩
    refine ⟨?_, ?_⟩
    · intro h0
      rw [h0] at hc
      exact absurd (show c ∈ ([] : List Char) from hc) (List.not_mem_nil c)
    · intro hempty
      have h2 := (pyStripList_empty_iff t.toList).mp hempty c hc
      rw [h2] at hcs
      exact Bool.noConfusion hcs

/-! ## C1 and C5: request validation -/

/-- C1: the claim that supplying all three Azure fields in the request
passes validation even when the `AZURE_*` environment variables are
unset is FALSE of the code: `fill_defaults_from_env` checks only the
environment variables (`if not all([azure_api_base, ...])` over
`os.getenv` results), so such a request is rejected — contradicting the
model's own docstring and the raised error message. -/
theorem C1_azure_request_fields_rejected :
    fill_defaults_from_env
      { graphrag_api_key := none, azure_api_base := none,
        azure_api_version := none, azure_deployment_name := none }
      { api_key := some "sk-test", llm := some "azure",
        azure_api_base := some "https://example.openai.azure.com",
        azure_api_version := some "2024-02-01",
        azure_deployment_name := some "gpt-4o" } = .error azureErrMsg := by
  rfl

/-- C5: with no truthy `api_key` in the request and `GRAPHRAG_API_KEY`
unset (or empty), the root validator raises, the endpoint returns a
validation error, and the filesystem is unchanged — no project directory
or any other side effect is created. -/
theorem C5_missing_credential_no_side_effect (env : Env) (fs : FS)
    (raw : CreateValues) (project_id settings : String)
    (failAt : Option (CreateStep × String))
    (hreq : strTruthy raw.api_key = false)
    (henv : strTruthy env.graphrag_api_key = false) :
    create_project_endpoint env fs raw project_id settings failAt =
      ((422, apiKeyErrMsg), fs) := by
  unfold create_project_endpoint fill_defaults_from_env
  rw [hreq, henv]
  rfl

/-- Witness for C5 at a concrete input. -/
theorem C5_missing_credential_no_side_effect_witness :
    create_project_endpoint
      { graphrag_api_key := none, azure_api_base := none,
        azure_api_version := none, azure_deployment_name := none }
      FS.empty {} "p1" "settings-text" none =
      ((422, apiKeyErrMsg), FS.empty) :=
  C5_missing_credential_no_side_effect _ _ _ _ _ _ rfl rfl

/-! ## C4 and C10: the create operation -/

theorem createCleanup_result (p : Path) (fsCur : FS) (msg : String)
    (hex : fsCur.existsPath p = true) :
    createCleanup p fsCur msg =
      ((500, "Failed to create project: " ++ msg), fsCur.rmtree p) := by
  simp [createCleanup, hex]

theorem createCleanup_spec (p : Path) (fsCur : FS) (msg : String)
    (hex : fsCur.existsPath p = true) :
    (createCleanup p fsCur msg).1 =
      (500, "Failed to create project: " ++ msg) ∧
    (∀ d ∈ (createCleanup p fsCur msg).2.dirs, p.isPrefixOf d = false) ∧
    (∀ f ∈ (createCleanup p fsCur msg).2.files, p.isPrefixOf f.1 = false) := by
  rw [createCleanup_result p fsCur msg hex]
  exact ⟨rfl, rmtree_dirs_no_prefix _ _, rmtree_files_no_prefix _ _⟩

theorem existsPath_projectPath_of_dirs_eq (fs g : FS) (project_id : String)
    (h : g.dirs = (fs.mkdirParents (projectPath project_id ++ ["input"])).dirs) :
    g.existsPath (projectPath project_id) = true := by
  apply existsPath_of_mem_dirs
  rw [h]
  exact mem_mkdirParents _ _ _ (projectPath_mem_ancestors_input project_id)

/-- C4: whenever an exception is raised at any step after the initial
directory creation has begun, `create_project` returns the 500 response
carrying the underlying message and the resulting filesystem contains no
directory or file under the project path: the partially created project
directory has been recursively deleted. -/
theorem C4_failed_create_cleans_directory (fs : FS)
    (req : CreateProjectRequest) (project_id settings msg : String)
    (step : CreateStep) (hstep : step ≠ CreateStep.mkdirStep) :
    (create_project fs req project_id settings (some (step, msg))).1 =
      (500, "Failed to create project: " ++ msg) ∧
    (∀ d ∈ (create_project fs req project_id settings (some (step, msg))).2.dirs,
      (projectPath project_id).isPrefixOf d = false) ∧
    (∀ f ∈ (create_project fs req project_id settings (some (step, msg))).2.files,
      (projectPath project_id).isPrefixOf f.1 = false) := by
  cases step with
  | mkdirStep => exact absurd rfl hstep
  | writeTextStep =>
    have hred : create_project fs req project_id settings
        (some (.writeTextStep, msg)) =
        createCleanup (projectPath project_id)
          (fs.mkdirParents (projectPath project_id ++ ["input"])) msg := rfl
    rw [hred]
    exact createCleanup_spec _ _ _
      (existsPath_projectPath_of_dirs_eq fs _ project_id rfl)
  | initStep =>
    have hred : create_project fs req project_id settings
        (some (.initStep, msg)) =
        createCleanup (projectPath project_id)
          (if writesSource req.text_content then
            (fs.mkdirParents (projectPath project_id ++ ["input"])).writeFile
              (projectPath project_id ++ ["input"] ++ ["source_text.txt"])
              req.text_content
          else fs.mkdirParents (projectPath project_id ++ ["input"])) msg := rfl
    rw [hred]
    refine createCleanup_spec _ _ _
      (existsPath_projectPath_of_dirs_eq fs _ project_id ?_)
    split <;> rfl
  | envStep =>
    have hred : create_project fs req project_id settings
        (some (.envStep, msg)) =
        createCleanup (projectPath project_id)
          ((((if writesSource req.text_content then
              (fs.mkdirParents (projectPath project_id ++ ["input"])).writeFile
                (projectPath project_id ++ ["input"] ++ ["source_text.txt"])
                req.text_content
            else fs.mkdirParents (projectPath project_id ++ ["input"])).writeFile
              (projectPath project_id ++ ["settings.yaml"]) settings).writeFile
              (projectPath project_id ++ [".env"]) "init")) msg := rfl
    rw [hred]
    refine createCleanup_spec _ _ _
      (existsPath_projectPath_of_dirs_eq fs _ project_id ?_)
    split <;> rfl
  | readSettingsStep =>
    have hred : create_project fs req project_id settings
        (some (.readSettingsStep, msg)) =
        createCleanup (projectPath project_id)
          (((((if writesSource req.text_content then
              (fs.mkdirParents (projectPath project_id ++ ["input"])).writeFile
                (projectPath project_id ++ ["input"] ++ ["source_text.txt"])
                req.text_content
            else fs.mkdirParents (projectPath project_id ++ ["input"])).writeFile
              (projectPath project_id ++ ["settings.yaml"]) settings).writeFile
              (projectPath project_id ++ [".env"]) "init").writeFile
              (projectPath project_id ++ [".env"])
              ("GRAPHRAG_API_KEY=" ++ pyShow req.api_key))) msg := rfl
    rw [hred]
    refine createCleanup_spec _ _ _
      (existsPath_projectPath_of_dirs_eq fs _ project_id ?_)
    split <;> rfl
  | writeSettingsStep =>
    have hred : create_project fs req project_id settings
        (some (.writeSettingsStep, msg)) =
        createCleanup (projectPath project_id)
          (((((if writesSource req.text_content then
              (fs.mkdirParents (projectPath project_id ++ ["input"])).writeFile
                (projectPath project_id ++ ["input"] ++ ["source_text.txt"])
                req.text_content
            else fs.mkdirParents (projectPath project_id ++ ["input"])).writeFile
              (projectPath project_id ++ ["settings.yaml"]) settings).writeFile
              (projectPath project_id ++ [".env"]) "init").writeFile
              (projectPath project_id ++ [".env"])
              ("GRAPHRAG_API_KEY=" ++ pyShow req.api_key))) msg := rfl
    rw [hred]
    refine createCleanup_spec _ _ _
      (existsPath_projectPath_of_dirs_eq fs _ project_id ?_)
    split <;> rfl

/-- Witness for C4 at a concrete input. -/
theorem C4_failed_create_cleans_directory_witness :
    (create_project FS.empty
      { text_content := "hello", api_key := some "k", llm := "openai",
        azure_api_base := none, azure_api_version := none,
        azure_deployment_name := none }
      "p1" "settings-text" (some (.initStep, "boom"))).1 =
      (500, "Failed to create project: boom") ∧
    (∀ d ∈ (create_project FS.empty
      { text_content := "hello", api_key := some "k", llm := "openai",
        azure_api_base := none, azure_api_version := none,
        azure_deployment_name := none }
      "p1" "settings-text" (some (.initStep, "boom"))).2.dirs,
      (projectPath "p1").isPrefixOf d = false) ∧
    (∀ f ∈ (create_project FS.empty
      { text_content := "hello", api_key := some "k", llm := "openai",
        azure_api_base := none, azure_api_version := none,
        azure_deployment_name := none }
      "p1" "settings-text" (some (.initStep, "boom"))).2.files,
      (projectPath "p1").isPrefixOf f.1 = false) :=
  C4_failed_create_cleans_directory FS.empty _ "p1" "settings-text" "boom"
    CreateStep.initStep (by decide)

theorem readFile_mkdirParents (fs : FS) (p q : Path) :
    (fs.mkdirParents p).readFile q = fs.readFile q := by
  unfold FS.readFile
  rw [mkdirParents_files]

theorem readFile_none_of_no_prefix (fs : FS) (p q : Path)
    (hpre : p.isPrefixOf q = true)
    (h : ∀ f ∈ fs.files, p.isPrefixOf f.1 = false) :
    fs.readFile q = none := by
  have hfind : List.find? (fun f => f.1 == q) fs.files = none := by
    rw [List.find?_eq_none]
    intro f hf hbeq
    have hq : f.1 = q := by simpa using hbeq
    have h2 := h f hf
    rw [hq, hpre] at h2
    exact Bool.noConfusion h2
  simp [FS.readFile, hfind]

theorem no_prefix_extend {p q r : Path} (hpq : p.isPrefixOf q = true)
    (h : p.isPrefixOf r = false) : q.isPrefixOf r = false := by
  rw [Bool.eq_false_iff] at h ⊢
  intro hqr
  apply h
  rw [List.isPrefixOf_iff_prefix] at hpq hqr ⊢
  exact hpq.trans hqr

/-- C10: on a successful create into a filesystem holding nothing under
the (freshly generated) project path, the input document
`source_text.txt` is written exactly when `text_content` is nonempty
with a nonempty strip — equivalently, when it contains at least one
non-whitespace character — and when written its content is exactly the
supplied text; otherwise nothing at all is placed under the input
directory. -/
theorem C10_source_text_write_iff (fs : FS) (req : CreateProjectRequest)
    (project_id settings : String)
    (hfresh : ∀ f ∈ fs.files, (projectPath project_id).isPrefixOf f.1 = false) :
    (create_project fs req project_id settings none).1 =
      (201, "Project created successfully.") ∧
    ((create_project fs req project_id settings none).2.readFile
        (projectPath project_id ++ ["input", "source_text.txt"]) =
      if writesSource req.text_content then some req.text_content else none) ∧
    (writesSource req.text_content = true ↔
      ∃ c ∈ req.text_content.toList, isPySpace c = false) ∧
    (writesSource req.text_content = false →
      ∀ f ∈ (create_project fs req project_id settings none).2.files,
        (projectPath project_id ++ ["input"]).isPrefixOf f.1 = false) := by
  have hsrc : projectPath project_id ++ ["input", "source_text.txt"] =
      projectPath project_id ++ ["input"] ++ ["source_text.txt"] := rfl
  have hne_settings : projectPath project_id ++ ["settings.yaml"] ≠
      projectPath project_id ++ ["input", "source_text.txt"] := by
    simp [projectPath]
  have hne_env : projectPath project_id ++ [".env"] ≠
      projectPath project_id ++ ["input", "source_text.txt"] := by
    simp [projectPath]
  have hred : create_project fs req project_id settings none =
      ((201, "Project created successfully."),
        (((((if writesSource req.text_content then
            (fs.mkdirParents (projectPath project_id ++ ["input"])).writeFile
              (projectPath project_id ++ ["input"] ++ ["source_text.txt"])
              req.text_content
          else fs.mkdirParents (projectPath project_id ++ ["input"])).writeFile
            (projectPath project_id ++ ["settings.yaml"]) settings).writeFile
            (projectPath project_id ++ [".env"]) "init").writeFile
            (projectPath project_id ++ [".env"])
            ("GRAPHRAG_API_KEY=" ++ pyShow req.api_key)).writeFile
            (projectPath project_id ++ ["settings.yaml"])
            (if req.llm = "azure" then azureSub settings req else settings))) :=
    rfl
  rw [hred]
  refine ⟨rfl, ?_, writesSource_iff _, ?_⟩
  · rw [readFile_writeFile_ne _ _ _ _ hne_settings,
      readFile_writeFile_ne _ _ _ _ hne_env,
      readFile_writeFile_ne _ _ _ _ hne_env,
      readFile_writeFile_ne _ _ _ _ hne_settings]
    split
    · rw [hsrc, readFile_writeFile_self]
    · rw [readFile_mkdirParents]
      exact readFile_none_of_no_prefix fs _ _
        ((List.isPrefixOf_iff_prefix).mpr (List.prefix_append _ _)) hfresh
  · intro hws f hf
    rw [if_neg (by rw [hws]; exact Bool.noConfusion)] at hf
    have hinput : (projectPath project_id).isPrefixOf
        (projectPath project_id ++ ["input"]) = true :=
      (List.isPrefixOf_iff_prefix).mpr (List.prefix_append _ _)
    simp only [FS.writeFile, List.mem_cons, mkdirParents_files] at hf
    rcases hf with rfl | rfl | rfl | rfl | hf
    · simp [projectPath, List.isPrefixOf]
    · simp [projectPath, List.isPrefixOf]
    · simp [projectPath, List.isPrefixOf]
    · simp [projectPath, List.isPrefixOf]
    · exact no_prefix_extend hinput (hfresh f hf)

/-- Witness for C10 at a concrete input. -/
theorem C10_source_text_write_iff_witness :
    (create_project FS.empty
      { text_content := "hello world", api_key := some "k", llm := "openai",
        azure_api_base := none, azure_api_version := none,
        azure_deployment_name := none }
      "p1" "settings-text" none).2.readFile
        (projectPath "p1" ++ ["input", "source_text.txt"]) =
      if writesSource "hello world" then some "hello world" else none :=
  (C10_source_text_write_iff FS.empty _ "p1" "settings-text"
    (by intro f hf; cases hf)).2.1

/-! ## C2 and C6: the query operation -/

/-- C2: the claim that an invalid method fails with a 400 bad-request is
FALSE of the code: the `raise HTTPException(status_code=400, ...)` for
an invalid search method sits inside the `try` block, so the catch-all
`except Exception` converts it into a 500 (`"Query failed: ..."`).  On
an existing, indexed project, any method other than `"local"` or
`"global"` therefore yields status 500, not 400. -/
theorem C2_invalid_method_yields_500 (fs : FS)
    (project_id query method : String) (so : Except String String)
    (hp : fs.existsPath (projectPath project_id) = true)
    (ho : fs.existsPath (projectPath project_id ++ ["output"]) = true)
    (hl : method ≠ "local") (hg : method ≠ "global") :
    run_query fs project_id query method so =
      (500, "Query failed: " ++
        httpExcStr 400 ("Invalid search method: " ++ method)) := by
  simp [run_query, hp, ho, hl, hg]

/-- Witness for C2 at the concrete failing input (project "p1" exists
and is indexed, method "hybrid"): the result status is 500. -/
theorem C2_invalid_method_yields_500_witness :
    run_query
      ⟨[["api_projects"], ["api_projects", "p1"],
        ["api_projects", "p1", "output"]], []⟩
      "p1" "What is GraphRAG?" "hybrid" (.ok "unused-response") =
      (500, "Query failed: " ++
        httpExcStr 400 ("Invalid search method: " ++ "hybrid")) :=
  C2_invalid_method_yields_500 _ "p1" "What is GraphRAG?" "hybrid" _
    (by decide) (by decide) (by decide) (by decide)

/-- C6: a query against a missing project directory yields 404 whatever
the query text and method; a query against an existing project whose
output directory is absent yields the 400 "not indexed" response,
again regardless of the query text — and the project-existence check
takes precedence, as the 404 case applies whenever the project is
missing. -/
theorem C6_missing_or_unindexed_query (fs : FS)
    (project_id query method : String) (so : Except String String) :
    (fs.existsPath (projectPath project_id) = false →
      run_query fs project_id query method so = (404, "Project not found.")) ∧
    (fs.existsPath (projectPath project_id) = true →
      fs.existsPath (projectPath project_id ++ ["output"]) = false →
      run_query fs project_id query method so =
        (400, "Project has not been indexed yet.")) := by
  constructor
  · intro h
    simp [run_query, h]
  · intro h1 h2
    simp [run_query, h1, h2]

/-- Witness for C6 at concrete inputs: a missing project gives 404 and
an unindexed project gives 400. -/
theorem C6_missing_or_unindexed_query_witness :
    run_query FS.empty "p1" "anything" "global" (.ok "r") =
      (404, "Project not found.") ∧
    run_query ⟨[["api_projects"], ["api_projects", "p1"]], []⟩ "p1"
      "anything" "global" (.ok "r") =
      (400, "Project has not been indexed yet.") :=
  ⟨(C6_missing_or_unindexed_query FS.empty "p1" "anything" "global"
      (.ok "r")).1 (by decide),
   (C6_missing_or_unindexed_query _ "p1" "anything" "global"
      (.ok "r")).2 (by decide) (by decide)⟩

/-! ## C7: dry-run indexing -/

/-- C7: on a missing project the index request yields 404 and the
pipeline is not invoked; on an existing project with `dry_run` set and a
configuration that loads (with the `cliOverrides` applied to the load),
the request returns the 200 dry-run success message and `build_index` is
not invoked; a truthy `output_dir` produces exactly the
`output.base_dir` override. -/
theorem C7_dry_run_validates_only (fs : FS) (project_id : String)
    (config : IndexingConfig)
    (lcr : List (String × String) → Except String Unit)
    (bir : Except String Unit) :
    (fs.existsPath (projectPath project_id) = false →
      run_indexing fs project_id config lcr bir =
        ((404, "Project not found."), false)) ∧
    (fs.existsPath (projectPath project_id) = true →
      config.dry_run = true →
      lcr (cliOverrides config) = .ok () →
      run_indexing fs project_id config lcr bir =
        ((200, "Dry run validation successful. Configuration is valid."),
          false)) ∧
    (∀ d : String, d ≠ "" →
      cliOverrides { config with output_dir := some d } =
        [("output.base_dir", d)]) := by
  refine ⟨?_, ?_, ?_⟩
  · intro h
    simp [run_indexing, h]
  · intro h1 h2 h3
    simp [run_indexing, h1, h2, h3]
  · intro d hd
    simp [cliOverrides, strTruthy, hd]

/-- Witness for C7 at a concrete input. -/
theorem C7_dry_run_validates_only_witness :
    run_indexing ⟨[["api_projects"], ["api_projects", "p1"]], []⟩ "p1"
      { dry_run := true } (fun _ => Except.ok ()) (Except.ok ()) =
      ((200, "Dry run validation successful. Configuration is valid."),
        false) :=
  (C7_dry_run_validates_only _ "p1" { dry_run := true }
    (fun _ => Except.ok ()) (Except.ok ())).2.1 (by decide) rfl rfl

/-! ## C3 and C9: file upload -/

theorem filter_isNone_isSome_length (files : List UploadFileIn) :
    (files.filter (fun f => f.failure.isNone)).length +
      (files.filter (fun f => f.failure.isSome)).length = files.length := by
  induction files with
  | nil => rfl
  | cons a t ih =>
    cases hfa : a.failure <;> simp [List.filter_cons, hfa] <;> omega

theorem foldl_uploadStep_partition (input_path : Path) (uuidGen : Nat → String)
    (files : List UploadFileIn) (fs : FS) (res : UploadResults) (i : Nat) :
    ((files.foldl (uploadStep input_path uuidGen) (fs, res, i)).2.1.successful.length
      = res.successful.length +
        (files.filter (fun f => f.failure.isNone)).length) ∧
    ((files.foldl (uploadStep input_path uuidGen) (fs, res, i)).2.1.failed.length
      = res.failed.length +
        (files.filter (fun f => f.failure.isSome)).length) := by
  induction files generalizing fs res i with
  | nil => simp
  | cons a t ih =>
    rw [List.foldl_cons]
    cases hfa : a.failure with
    | none =>
      have hstep : uploadStep input_path uuidGen (fs, res, i) a =
          (fs.writeFile (input_path ++ [uuidGen i ++ "_" ++ a.filename])
            a.content,
           { res with successful := res.successful ++ [a.filename] }, i + 1) := by
        simp [uploadStep, hfa]
      rw [hstep]
      obtain ⟨ih1, ih2⟩ := ih
        (fs.writeFile (input_path ++ [uuidGen i ++ "_" ++ a.filename])
          a.content)
        { res with successful := res.successful ++ [a.filename] } (i + 1)
      rw [ih1, ih2]
      simp [List.filter_cons, hfa, List.length_append] <;> omega
    | some reason =>
      have hstep : uploadStep input_path uuidGen (fs, res, i) a =
          (fs, { res with failed := res.failed ++ [(a.filename, reason)] },
           i + 1) := by
        simp [uploadStep, hfa]
      rw [hstep]
      obtain ⟨ih1, ih2⟩ := ih fs
        { res with failed := res.failed ++ [(a.filename, reason)] } (i + 1)
      rw [ih1, ih2]
      simp [List.filter_cons, hfa, List.length_append] <;> omega

theorem foldl_uploadStep_dirs (input_path : Path) (uuidGen : Nat → String)
    (files : List UploadFileIn) (acc : FS × UploadResults × Nat) :
    (files.foldl (uploadStep input_path uuidGen) acc).1.dirs = acc.1.dirs := by
  induction files generalizing acc with
  | nil => rfl
  | cons a t ih =>
    rw [List.foldl_cons, ih]
    cases hfa : a.failure <;> simp [uploadStep, hfa, FS.writeFile]

/-- The body of `upload_txt_files` on an existing project, with the
destructuring `let` eliminated. -/
theorem upload_txt_files_elim (fs : FS) (project_id : String)
    (files : List UploadFileIn) (uuidGen : Nat → String)
    (hex : fs.existsPath (projectPath project_id) = true) :
    upload_txt_files fs project_id files uuidGen =
      (let input_path := projectPath project_id ++ ["input"]
       let fs0 := if ¬ fs.existsPath input_path then fs.mkdirParents input_path
                  else fs
       let out := files.foldl (uploadStep input_path uuidGen) (fs0, ⟨[], []⟩, 0)
       if out.2.1.successful.isEmpty then
         ((400, "No files could be uploaded."), out.1, out.2.1)
       else
         ((200, "Processed " ++ toString files.length ++ " files. " ++
           toString out.2.1.successful.length ++ " successful, " ++
           toString out.2.1.failed.length ++ " failed."), out.1, out.2.1)) := by
  unfold upload_txt_files
  rw [if_neg (by simp [hex])]

/-- C3: uploading N files of which M writes succeed always yields a
report whose `successful` and `failed` lists partition the inputs
(`len(successful) + len(failed) = N`, with `len(successful) = M`); the
operation returns 400 exactly when M = 0 and 200 exactly when M ≥ 1. -/
theorem C3_upload_partition_report (fs : FS) (project_id : String)
    (files : List UploadFileIn) (uuidGen : Nat → String)
    (hex : fs.existsPath (projectPath project_id) = true) :
    ((upload_txt_files fs project_id files uuidGen).2.2.successful.length +
      (upload_txt_files fs project_id files uuidGen).2.2.failed.length =
      files.length) ∧
    ((upload_txt_files fs project_id files uuidGen).2.2.successful.length =
      (files.filter (fun f => f.failure.isNone)).length) ∧
    ((files.filter (fun f => f.failure.isNone)).length = 0 →
      (upload_txt_files fs project_id files uuidGen).1.1 = 400) ∧
    (0 < (files.filter (fun f => f.failure.isNone)).length →
      (upload_txt_files fs project_id files uuidGen).1.1 = 200) := by
  rw [upload_txt_files_elim fs project_id files uuidGen hex]
  dsimp only
  generalize (if ¬ fs.existsPath (projectPath project_id ++ ["input"]) then
      fs.mkdirParents (projectPath project_id ++ ["input"]) else fs) = fs0
  obtain ⟨h1, h2⟩ := foldl_uploadStep_partition
    (projectPath project_id ++ ["input"]) uuidGen files fs0 ⟨[], []⟩ 0
  simp only [List.length_nil, Nat.zero_add] at h1 h2
  have hcount := filter_isNone_isSome_length files
  refine ⟨?_, ?_, ?_, ?_⟩
  · split <;> dsimp only <;> rw [h1, h2] <;> exact hcount
  · split <;> dsimp only <;> exact h1
  · intro hm
    have hEmpty : (files.foldl
        (uploadStep (projectPath project_id ++ ["input"]) uuidGen)
        (fs0, ⟨[], []⟩, 0)).2.1.successful.isEmpty = true := by
      rw [List.isEmpty_eq_true, ← List.length_eq_zero, h1, hm]
    rw [if_pos hEmpty]
  · intro hm
    have hNotEmpty : ¬ ((files.foldl
        (uploadStep (projectPath project_id ++ ["input"]) uuidGen)
        (fs0, ⟨[], []⟩, 0)).2.1.successful.isEmpty = true) := by
      rw [List.isEmpty_eq_true, ← List.length_eq_zero, h1]
      omega
    rw [if_neg hNotEmpty]

/-- Witness for C3 at a concrete input: two files, one succeeding and
one failing. -/
theorem C3_upload_partition_report_witness :
    ((upload_txt_files ⟨[["api_projects"], ["api_projects", "p1"]], []⟩ "p1"
      [⟨"a.txt", "alpha", none⟩, ⟨"b.txt", "", some "disk full"⟩]
      (fun _ => "u")).2.2.successful.length +
     (upload_txt_files ⟨[["api_projects"], ["api_projects", "p1"]], []⟩ "p1"
      [⟨"a.txt", "alpha", none⟩, ⟨"b.txt", "", some "disk full"⟩]
      (fun _ => "u")).2.2.failed.length = 2) ∧
    (upload_txt_files ⟨[["api_projects"], ["api_projects", "p1"]], []⟩ "p1"
      [⟨"a.txt", "alpha", none⟩, ⟨"b.txt", "", some "disk full"⟩]
      (fun _ => "u")).1.1 = 200 := by
  have h := C3_upload_partition_report
    ⟨[["api_projects"], ["api_projects", "p1"]], []⟩ "p1"
    [⟨"a.txt", "alpha", none⟩, ⟨"b.txt", "", some "disk full"⟩]
    (fun _ => "u") (by decide)
  exact ⟨h.1, h.2.2.2 (by decide)⟩

/-- C9: on an existing project whose input subdirectory is absent, the
upload operation does not fail with 404: it recreates the input
directory (present in the resulting filesystem) before writing. -/
theorem C9_upload_restores_input_dir (fs : FS) (project_id : String)
    (files : List UploadFileIn) (uuidGen : Nat → String)
    (hex : fs.existsPath (projectPath project_id) = true)
    (hin : fs.existsPath (projectPath project_id ++ ["input"]) = false) :
    ((upload_txt_files fs project_id files uuidGen).1.1 ≠ 404) ∧
    ((upload_txt_files fs project_id files uuidGen).2.1.existsDir
      (projectPath project_id ++ ["input"]) = true) := by
  rw [upload_txt_files_elim fs project_id files uuidGen hex]
  dsimp only
  have hfs0 : (if ¬ fs.existsPath (projectPath project_id ++ ["input"]) then
      fs.mkdirParents (projectPath project_id ++ ["input"]) else fs) =
      fs.mkdirParents (projectPath project_id ++ ["input"]) := by
    rw [if_pos]
    simp [hin]
  rw [hfs0]
  have hmem : projectPath project_id ++ ["input"] ∈
      (fs.mkdirParents (projectPath project_id ++ ["input"])).dirs :=
    mem_mkdirParents _ _ _
      (self_mem_ancestors _ (by simp [projectPath]))
  have hdir : (files.foldl
      (uploadStep (projectPath project_id ++ ["input"]) uuidGen)
      (fs.mkdirParents (projectPath project_id ++ ["input"]),
       ⟨[], []⟩, 0)).1.existsDir (projectPath project_id ++ ["input"]) =
      true := by
    unfold FS.existsDir
    rw [foldl_uploadStep_dirs]
    simpa [List.contains, List.elem_iff] using hmem
  constructor
  · split <;> dsimp only <;> decide
  · split <;> dsimp only <;> exact hdir

/-- Witness for C9 at a concrete input: the project exists, its input
directory does not, and after uploading one file the input directory is
present. -/
theorem C9_upload_restores_input_dir_witness :
    ((upload_txt_files ⟨[["api_projects"], ["api_projects", "p1"]], []⟩
      "p1" [⟨"a.txt", "alpha", none⟩] (fun _ => "u")).1.1 ≠ 404) ∧
    ((upload_txt_files ⟨[["api_projects"], ["api_projects", "p1"]], []⟩
      "p1" [⟨"a.txt", "alpha", none⟩] (fun _ => "u")).2.1.existsDir
      (projectPath "p1" ++ ["input"]) = true) :=
  C9_upload_restores_input_dir _ "p1" [⟨"a.txt", "alpha", none⟩]
    (fun _ => "u") (by decide) (by decide)

/-! ## C8: deletion and listing -/

theorem list_projects_mem (g : FS) (n : String) :
    n ∈ list_projects g ↔ ["api_projects", n] ∈ g.dirs := by
  unfold list_projects
  rw [List.mem_filterMap]
  constructor
  · rintro ⟨d, hd, hmap⟩
    match d, hmap with
    | [r, m], hmap =>
      simp only [] at hmap
      split at hmap
      · rename_i hr
        obtain rfl := Option.some.inj hmap
        rw [hr] at hd
        exact hd
      · exact absurd hmap (by simp)
  · intro hd
    exact ⟨["api_projects", n], hd, by simp⟩

/-- C8: deleting an existing project returns 200 and removes its
directory tree, so the existence check on it fails and its identifier no
longer appears in `list_projects`; deleting a missing project yields 404
and leaves the filesystem unchanged; and `list_projects` returns exactly
the names of the immediate subdirectories of the workspace root. -/
theorem C8_delete_then_absent (fs : FS) (project_id : String)
    (hex : fs.existsPath (projectPath project_id) = true) :
    ((delete_project fs project_id).1 =
      (200, "Project deleted successfully.")) ∧
    ((delete_project fs project_id).2.existsPath (projectPath project_id) =
      false) ∧
    (project_id ∉ list_projects (delete_project fs project_id).2) ∧
    (∀ (g : FS) (pid : String), g.existsPath (projectPath pid) = false →
      delete_project g pid = ((404, "Project not found."), g)) ∧
    (∀ (g : FS) (n : String),
      n ∈ list_projects g ↔ ["api_projects", n] ∈ g.dirs) := by
  have hdel : delete_project fs project_id =
      ((200, "Project deleted successfully."),
        fs.rmtree (projectPath project_id)) := by
    unfold delete_project
    rw [if_neg (by simp [hex])]
  refine ⟨?_, ?_, ?_, ?_, list_projects_mem⟩
  · rw [hdel]
  · rw [hdel]
    exact rmtree_existsPath_self fs (projectPath project_id)
  · rw [hdel]
    intro hmem
    have hd := (list_projects_mem _ project_id).mp hmem
    have hpre := rmtree_dirs_no_prefix fs (projectPath project_id)
      ["api_projects", project_id] hd
    have hself : (projectPath project_id).isPrefixOf
        ["api_projects", project_id] = true := by
      simp [projectPath, List.isPrefixOf_iff_prefix]
    rw [hself] at hpre
    exact Bool.noConfusion hpre
  · intro g pid hmiss
    unfold delete_project
    rw [if_pos (by simp [hmiss])]

/-- Witness for C8 at a concrete input: one project exists; after
deleting it, it is gone and unlisted. -/
theorem C8_delete_then_absent_witness :
    ((delete_project ⟨[["api_projects"], ["api_projects", "p1"]], []⟩
      "p1").1 = (200, "Project deleted successfully.")) ∧
    ((delete_project ⟨[["api_projects"], ["api_projects", "p1"]], []⟩
      "p1").2.existsPath (projectPath "p1") = false) ∧
    ("p1" ∉ list_projects
      (delete_project ⟨[["api_projects"], ["api_projects", "p1"]], []⟩
        "p1").2) := by
  have h := C8_delete_then_absent
    ⟨[["api_projects"], ["api_projects", "p1"]], []⟩ "p1" (by decide)
  exact ⟨h.1, h.2.1, h.2.2.1⟩

end GraphragFlask
